import Mathlib

/-!
Verification of the pagination-and-aggregation core of `github-activity-rs`.

The development shallowly embeds `src/github.rs` (the generic pagination
helper `fetch_all_nodes`, its three instantiations `fetch_issue_nodes`,
`fetch_pr_nodes`, `fetch_pr_review_nodes`, and the orchestrator
`fetch_activity`) and `src/filter.rs` (`filter_activity`).

Modelling conventions:
* The generated GraphQL response types (module `user_activity` in the source,
  produced by `graphql_client` from the query) are embedded as Lean structures
  whose names are the distinguishing tail of the generated Rust names
  (e.g. `UserActivity.IssueContributions` stands for
  `user_activity::UserActivityUserContributionsCollectionIssueContributions`).
  The three generated page-info types are structurally identical, so a single
  `PageInfo` structure stands for all three.
* A network round trip is modelled by a `Reply`: the transport layer may fail
  (`send()` error), decoding may fail (`res.json()` error), or a well-formed
  envelope `{data, errors}` arrives.  A server is a function from the index of
  the request (per connection, in issue order) to the reply it returns.
* The `loop` in `fetch_all_nodes` is embedded with explicit fuel (a bound on
  the number of requests); exhausting the fuel yields the distinguished
  outcome `diverge`, so non-termination within any bound is observable.
* The `.unwrap()` on the `user` field inside the extraction closures is
  modelled by the closure returning `Option`; `none` yields the distinguished
  outcome `panic`.
* Besides its outcome, each embedded operation returns the list of `Variables`
  values it sent, in request order, so request counts and request contents are
  provable.
* Rust `i64` fields are embedded as `Int` (no arithmetic is performed on
  them, so overflow is not an issue); `String` stays `String`; `Option` stays
  `Option`.
-/

namespace UserActivity

/-- Model of `{endCursor, hasNextPage}` — stands for the three structurally identical
generated page-info types of the source. -/
structure PageInfo where
  end_cursor : Option String
  has_next_page : Bool
deriving Repr, DecidableEq

/-- Model of `repository { nameWithOwner, updatedAt }`. -/
structure Repository where
  name_with_owner : String
  updated_at : String
deriving Repr, DecidableEq

/-- The `issue` payload of an issue-contribution node. -/
structure Issue where
  number : Int
  title : String
  url : String
  created_at : String
  state : String
  closed_at : Option String
  repository : Repository
deriving Repr, DecidableEq

/-- Model of `...IssueContributionsNodes`. -/
structure IssueNode where
  issue : Issue
deriving Repr, DecidableEq

/-- The `pullRequest` payload of a pull-request-contribution node. -/
structure PullRequest where
  number : Int
  title : String
  url : String
  created_at : String
  state : String
  merged : Bool
  merged_at : Option String
  closed_at : Option String
  repository : Repository
deriving Repr, DecidableEq

/-- Model of `...PullRequestContributionsNodes`. -/
structure PullRequestNode where
  pull_request : PullRequest
deriving Repr, DecidableEq

/-- The inner `pullRequest` of a review node (no repository field in the
query's selection for reviews). -/
structure ReviewedPullRequest where
  number : Int
  title : String
  url : String
  created_at : String
  state : String
deriving Repr, DecidableEq

/-- The `pullRequestReview` payload of a review-contribution node. -/
structure PullRequestReview where
  created_at : String
  pull_request : ReviewedPullRequest
deriving Repr, DecidableEq

/-- Model of `...PullRequestReviewContributionsNodes`. -/
structure PullRequestReviewNode where
  occurred_at : String
  pull_request_review : PullRequestReview
deriving Repr, DecidableEq

/-- One day of the contribution calendar. -/
structure ContributionDay where
  date : String
  contribution_count : Int
  weekday : Int
deriving Repr, DecidableEq

/-- One week of the contribution calendar. -/
structure CalendarWeek where
  contribution_days : List ContributionDay
deriving Repr, DecidableEq

/-- Model of `contributionCalendar { totalContributions, weeks }`. -/
structure ContributionCalendar where
  total_contributions : Int
  weeks : List CalendarWeek
deriving Repr, DecidableEq

/-- Model of `contributions { totalCount }` of a per-repository commit summary. -/
structure CommitContributions where
  total_count : Int
deriving Repr, DecidableEq

/-- One entry of `commitContributionsByRepository`. -/
structure CommitContributionsByRepository where
  repository : Repository
  contributions : CommitContributions
deriving Repr, DecidableEq

/-- Model of `issueContributions { totalCount, pageInfo, nodes }`. -/
structure IssueContributions where
  total_count : Int
  page_info : PageInfo
  nodes : Option (List IssueNode)
deriving Repr, DecidableEq

/-- Model of `pullRequestContributions { totalCount, pageInfo, nodes }`. -/
structure PullRequestContributions where
  total_count : Int
  page_info : PageInfo
  nodes : Option (List PullRequestNode)
deriving Repr, DecidableEq

/-- Model of `pullRequestReviewContributions { totalCount, pageInfo, nodes }`. -/
structure PullRequestReviewContributions where
  total_count : Int
  page_info : PageInfo
  nodes : Option (List PullRequestReviewNode)
deriving Repr, DecidableEq

/-- Model of `contributionsCollection { ... }`: the scalar counters, the calendar, the
capped per-repository commit list, and the three paginated connections. -/
structure ContributionsCollection where
  total_commit_contributions : Int
  total_issue_contributions : Int
  total_pull_request_contributions : Int
  total_pull_request_review_contributions : Int
  contribution_calendar : ContributionCalendar
  commit_contributions_by_repository : List CommitContributionsByRepository
  issue_contributions : IssueContributions
  pull_request_contributions : PullRequestContributions
  pull_request_review_contributions : PullRequestReviewContributions
deriving Repr, DecidableEq

/-- Model of `user { contributionsCollection }`. -/
structure User where
  contributions_collection : ContributionsCollection
deriving Repr, DecidableEq

/-- Model of `user_activity::ResponseData`: the decoded `data` object. -/
structure ResponseData where
  user : Option User
deriving Repr, DecidableEq

/-- Model of `user_activity::Variables`.  The source fields `from`/`to` are embedded as
`fromDate`/`toDate` (`from` is a Lean keyword). -/
structure Variables where
  username : String
  fromDate : String
  toDate : String
  issues_first : Int
  issues_after : Option String
  prs_first : Int
  prs_after : Option String
  pr_reviews_first : Int
  pr_reviews_after : Option String
deriving Repr, DecidableEq

end UserActivity

open UserActivity

/-- The possible results of one network round trip, seen by the client:
the send may fail, the JSON decode may fail, or a well-formed envelope
`{errors, data}` is decoded (`graphql_client::Response`). -/
inductive Reply where
  | transportErr : Reply
  | decodeErr : Reply
  | ok (errors : Option (List String)) (data : Option ResponseData) : Reply
deriving Repr, DecidableEq

/-- The error classification of the spec's §4.4, as produced by the code's
distinct `bail!`/`context` sites:
`transport` = failed send, `decode` = failed JSON parse,
`protocol msgs` = envelope with `errors` present,
`integrity` = envelope with `data` null and `errors` absent. -/
inductive FetchError where
  | transport : FetchError
  | decode : FetchError
  | protocol (msgs : List String) : FetchError
  | integrity : FetchError
deriving Repr, DecidableEq

/-- Outcome of a drain (`fetch_all_nodes`): success with the accumulated
nodes, a classified error, a panic of an extraction closure (`.unwrap()` on a
missing `user`), or exhaustion of the request budget (the loop still running
after `fuel` requests). -/
inductive DrainResult (T : Type) where
  | ok (nodes : List T) : DrainResult T
  | err (e : FetchError) : DrainResult T
  | panic : DrainResult T
  | diverge : DrainResult T
deriving Repr, DecidableEq

/-- The loop body of `fetch_all_nodes`, with explicit fuel.
`i` is the index of the next request (the server's reply stream is consumed at
`i`, `i+1`, ...), `cursor` the cursor to thread into the next request, `acc`
the accumulator.  Returns the outcome together with the `Variables` of every
request issued, in order. -/
def fetch_all_nodes_aux {T P : Type}
    (build_vars : Option String → Variables)
    (extract : ResponseData → Option (Option (List T) × P))
    (extract_page_info : P → Option String × Bool)
    (server : Nat → Reply) :
    Nat → Nat → Option String → List T → DrainResult T × List Variables
  | 0, _, _, _ => (.diverge, [])
  | fuel + 1, i, cursor, acc =>
    let v := build_vars cursor
    match server i with
    | .transportErr => (.err .transport, [v])
    | .decodeErr => (.err .decode, [v])
    | .ok (some msgs) _ => (.err (.protocol msgs), [v])
    | .ok none none => (.err .integrity, [v])
    | .ok none (some data) =>
      match extract data with
      | none => (.panic, [v])
      | some (nodes_opt, page_info) =>
        let acc2 := acc ++ nodes_opt.getD []
        let pi := extract_page_info page_info
        if pi.2 then
          let rest := fetch_all_nodes_aux build_vars extract extract_page_info
            server fuel (i + 1) pi.1 acc2
          (rest.1, v :: rest.2)
        else
          (.ok acc2, [v])

/-- Embeds `fetch_all_nodes` (src/github.rs:24-82): drain one connection, starting
with an absent cursor and an empty accumulator. -/
def fetch_all_nodes {T P : Type}
    (build_vars : Option String → Variables)
    (extract : ResponseData → Option (Option (List T) × P))
    (extract_page_info : P → Option String × Bool)
    (server : Nat → Reply) (fuel : Nat) :
    DrainResult T × List Variables :=
  fetch_all_nodes_aux build_vars extract extract_page_info server fuel 0 none []

section StepLemmas

variable {T P : Type}
variable (b : Option String → Variables)
variable (ex : ResponseData → Option (Option (List T) × P))
variable (epi : P → Option String × Bool)
variable (s : Nat → Reply)

lemma fetch_all_nodes_aux_zero (i : Nat) (c : Option String) (a : List T) :
    fetch_all_nodes_aux b ex epi s 0 i c a = (.diverge, []) := rfl

lemma fetch_all_nodes_aux_transport {i : Nat} (h : s i = .transportErr)
    (fuel : Nat) (c : Option String) (a : List T) :
    fetch_all_nodes_aux b ex epi s (fuel + 1) i c a = (.err .transport, [b c]) := by
  simp [fetch_all_nodes_aux, h]

lemma fetch_all_nodes_aux_decode {i : Nat} (h : s i = .decodeErr)
    (fuel : Nat) (c : Option String) (a : List T) :
    fetch_all_nodes_aux b ex epi s (fuel + 1) i c a = (.err .decode, [b c]) := by
  simp [fetch_all_nodes_aux, h]

lemma fetch_all_nodes_aux_protocol {i : Nat} {msgs : List String}
    {d : Option ResponseData} (h : s i = .ok (some msgs) d)
    (fuel : Nat) (c : Option String) (a : List T) :
    fetch_all_nodes_aux b ex epi s (fuel + 1) i c a =
      (.err (.protocol msgs), [b c]) := by
  simp [fetch_all_nodes_aux, h]

lemma fetch_all_nodes_aux_integrity {i : Nat} (h : s i = .ok none none)
    (fuel : Nat) (c : Option String) (a : List T) :
    fetch_all_nodes_aux b ex epi s (fuel + 1) i c a = (.err .integrity, [b c]) := by
  simp [fetch_all_nodes_aux, h]

lemma fetch_all_nodes_aux_panic {i : Nat} {d : ResponseData}
    (h : s i = .ok none (some d)) (hex : ex d = none)
    (fuel : Nat) (c : Option String) (a : List T) :
    fetch_all_nodes_aux b ex epi s (fuel + 1) i c a = (.panic, [b c]) := by
  simp [fetch_all_nodes_aux, h, hex]

lemma fetch_all_nodes_aux_stop {i : Nat} {d : ResponseData}
    {nop : Option (List T)} {p : P} {ec : Option String}
    (h : s i = .ok none (some d)) (hex : ex d = some (nop, p))
    (hepi : epi p = (ec, false))
    (fuel : Nat) (c : Option String) (a : List T) :
    fetch_all_nodes_aux b ex epi s (fuel + 1) i c a =
      (.ok (a ++ nop.getD []), [b c]) := by
  simp [fetch_all_nodes_aux, h, hex, hepi]

lemma fetch_all_nodes_aux_continue {i : Nat} {d : ResponseData}
    {nop : Option (List T)} {p : P} {ec : Option String}
    (h : s i = .ok none (some d)) (hex : ex d = some (nop, p))
    (hepi : epi p = (ec, true))
    (fuel : Nat) (c : Option String) (a : List T) :
    fetch_all_nodes_aux b ex epi s (fuel + 1) i c a =
      ((fetch_all_nodes_aux b ex epi s fuel (i + 1) ec (a ++ nop.getD [])).1,
       b c :: (fetch_all_nodes_aux b ex epi s fuel (i + 1) ec (a ++ nop.getD [])).2) := by
  simp [fetch_all_nodes_aux, h, hex, hepi]

end StepLemmas

/-- A block of `pages.length` consecutive well-formed replies, each carrying a
node list and reporting a further page with the paired cursor. -/
def goodBlock {T P : Type}
    (ex : ResponseData → Option (Option (List T) × P))
    (epi : P → Option String × Bool) (s : Nat → Reply)
    (i : Nat) (pages : List (List T)) (cursors : List (Option String)) : Prop :=
  ∀ j, j < pages.length →
    ∃ d p pg c, pages.get? j = some pg ∧ cursors.get? j = some c ∧
      s (i + j) = .ok none (some d) ∧ ex d = some (some pg, p) ∧
      epi p = (c, true)

/-- Running the drain loop over a block of well-formed, continuing pages
consumes those pages: it appends their nodes to the accumulator in arrival
order, threads the cursors, and records one request per page, then proceeds
with the remaining fuel at the cursor of the last page of the block. -/
lemma fetch_all_nodes_aux_block {T P : Type}
    (b : Option String → Variables)
    (ex : ResponseData → Option (Option (List T) × P))
    (epi : P → Option String × Bool) (s : Nat → Reply)
    (pages : List (List T)) :
    ∀ (cursors : List (Option String)) (rest i : Nat) (cursor : Option String)
      (acc : List T),
      cursors.length = pages.length →
      goodBlock ex epi s i pages cursors →
      fetch_all_nodes_aux b ex epi s (pages.length + rest) i cursor acc =
        ((fetch_all_nodes_aux b ex epi s rest (i + pages.length)
            (cursors.getLastD cursor) (acc ++ pages.flatten)).1,
         ((cursor :: cursors).dropLast).map b ++
         (fetch_all_nodes_aux b ex epi s rest (i + pages.length)
            (cursors.getLastD cursor) (acc ++ pages.flatten)).2) := by
  induction pages with
  | nil =>
    intro cursors rest i cursor acc hlen _
    have hc : cursors = [] := List.length_eq_zero.mp hlen
    subst hc
    simp
  | cons pg pgs ih =>
    intro cursors rest i cursor acc hlen hblock
    match cursors with
    | [] => simp at hlen
    | c :: cs =>
      obtain ⟨d, p, pg', c', hpg, hc, hs, hex, hepi⟩ := hblock 0 (by simp)
      simp only [List.get?] at hpg hc
      obtain rfl : pg = pg' := Option.some.inj hpg
      obtain rfl : c = c' := Option.some.inj hc
      rw [Nat.add_zero] at hs
      have hstep := fetch_all_nodes_aux_continue b ex epi s hs hex hepi
        (pgs.length + rest) cursor acc
      have hlen' : cs.length = pgs.length := by simpa using hlen
      have hblock' : goodBlock ex epi s (i + 1) pgs cs := by
        intro j hj
        obtain ⟨d2, p2, pg2, c2, h1, h2, h3, h4, h5⟩ :=
          hblock (j + 1) (by simp only [List.length_cons]; omega)
        refine ⟨d2, p2, pg2, c2, h1, h2, ?_, h4, h5⟩
        have hidx : i + 1 + j = i + (j + 1) := by omega
        rw [hidx]; exact h3
      have hrec := ih cs rest (i + 1) c (acc ++ (some pg).getD []) hlen' hblock'
      have harith : (pg :: pgs).length + rest = pgs.length + rest + 1 := by
        simp [List.length_cons]; omega
      rw [harith, hstep, hrec]
      have hi : i + 1 + pgs.length = i + (pg :: pgs).length := by
        simp [List.length_cons]; omega
      have hacc : (acc ++ (some pg).getD []) ++ pgs.flatten =
          acc ++ (pg :: pgs).flatten := by
        simp
      have hlast : cs.getLastD c = (c :: cs).getLastD cursor := by
        cases cs <;> simp [List.getLastD]
      have hdrop : ((cursor :: c :: cs).dropLast).map b =
          b cursor :: ((c :: cs).dropLast).map b := by
        rfl
      rw [hi, hacc, hlast, hdrop]
      simp

/-- The variable-builder closure of `fetch_issue_nodes`
(src/github.rs:94-104): the cursor is threaded into `issues_after`; the two
pairs not being paginated carry the fixed page size and no cursor. -/
def build_issue_vars (username fromDate toDate : String) (first : Int)
    (cursor : Option String) : Variables :=
  { username := username, fromDate := fromDate, toDate := toDate,
    issues_first := first, issues_after := cursor,
    prs_first := first, prs_after := none,
    pr_reviews_first := first, pr_reviews_after := none }

/-- The variable-builder closure of `fetch_pr_nodes` (src/github.rs:127-137). -/
def build_pr_vars (username fromDate toDate : String) (first : Int)
    (cursor : Option String) : Variables :=
  { username := username, fromDate := fromDate, toDate := toDate,
    issues_first := first, issues_after := none,
    prs_first := first, prs_after := cursor,
    pr_reviews_first := first, pr_reviews_after := none }

/-- The variable-builder closure of `fetch_pr_review_nodes`
(src/github.rs:161-171). -/
def build_pr_review_vars (username fromDate toDate : String) (first : Int)
    (cursor : Option String) : Variables :=
  { username := username, fromDate := fromDate, toDate := toDate,
    issues_first := first, issues_after := none,
    prs_first := first, prs_after := none,
    pr_reviews_first := first, pr_reviews_after := cursor }

/-- The extraction closure of `fetch_issue_nodes` (src/github.rs:105-108).
The source dereferences `data.user` with `.unwrap()`; a `none` result models
that panic. -/
def extract_issue (d : ResponseData) :
    Option (Option (List IssueNode) × PageInfo) :=
  d.user.map fun u =>
    (u.contributions_collection.issue_contributions.nodes,
     u.contributions_collection.issue_contributions.page_info)

/-- The extraction closure of `fetch_pr_nodes` (src/github.rs:138-141). -/
def extract_pr (d : ResponseData) :
    Option (Option (List PullRequestNode) × PageInfo) :=
  d.user.map fun u =>
    (u.contributions_collection.pull_request_contributions.nodes,
     u.contributions_collection.pull_request_contributions.page_info)

/-- The extraction closure of `fetch_pr_review_nodes`
(src/github.rs:172-175). -/
def extract_pr_review (d : ResponseData) :
    Option (Option (List PullRequestReviewNode) × PageInfo) :=
  d.user.map fun u =>
    (u.contributions_collection.pull_request_review_contributions.nodes,
     u.contributions_collection.pull_request_review_contributions.page_info)

/-- The page-info projection closure shared (textually) by all three
fetchers: `(page_info.end_cursor.clone(), page_info.has_next_page)`. -/
def extract_page_info_pair (pi : PageInfo) : Option String × Bool :=
  (pi.end_cursor, pi.has_next_page)

/-- Embeds `fetch_issue_nodes` (src/github.rs:85-114). -/
def fetch_issue_nodes (username fromDate toDate : String) (first : Int)
    (server : Nat → Reply) (fuel : Nat) :
    DrainResult IssueNode × List Variables :=
  fetch_all_nodes (build_issue_vars username fromDate toDate first)
    extract_issue extract_page_info_pair server fuel

/-- Embeds `fetch_pr_nodes` (src/github.rs:117-147). -/
def fetch_pr_nodes (username fromDate toDate : String) (first : Int)
    (server : Nat → Reply) (fuel : Nat) :
    DrainResult PullRequestNode × List Variables :=
  fetch_all_nodes (build_pr_vars username fromDate toDate first)
    extract_pr extract_page_info_pair server fuel

/-- Embeds `fetch_pr_review_nodes` (src/github.rs:150-181). -/
def fetch_pr_review_nodes (username fromDate toDate : String) (first : Int)
    (server : Nat → Reply) (fuel : Nat) :
    DrainResult PullRequestReviewNode × List Variables :=
  fetch_all_nodes (build_pr_review_vars username fromDate toDate first)
    extract_pr_review extract_page_info_pair server fuel

/-- The environment of one `fetch_activity` run: the reply to the base
(summary) request, and the reply streams the server produces for the three
concurrent pagination loops (one stream per connection kind, indexed by the
request number within that drain — requests of a single drain are strictly
sequential in the source). -/
structure Server where
  base : Reply
  issues : Nat → Reply
  prs : Nat → Reply
  reviews : Nat → Reply

/-- Which phase of `fetch_activity` produced an error: the base request, or
one of the three drains (the source attaches the contexts "Failed to fetch
issue nodes" / "... PR nodes" / "... PR review nodes"). -/
inductive ActivityError where
  | base (e : FetchError) : ActivityError
  | issues (e : FetchError) : ActivityError
  | prs (e : FetchError) : ActivityError
  | reviews (e : FetchError) : ActivityError
deriving Repr, DecidableEq

/-- Outcome of `fetch_activity`. -/
inductive ActivityOutcome where
  | ok (data : ResponseData) : ActivityOutcome
  | err (e : ActivityError) : ActivityOutcome
  | panic : ActivityOutcome
  | diverge : ActivityOutcome
deriving Repr, DecidableEq

/-- The base-request variables of `fetch_activity` (src/github.rs:190-203):
`first = 10` for all three connections and no cursors. -/
def base_variables (username fromDate toDate : String) : Variables :=
  { username := username, fromDate := fromDate, toDate := toDate,
    issues_first := 10, issues_after := none,
    prs_first := 10, prs_after := none,
    pr_reviews_first := 10, pr_reviews_after := none }

/-- The merge step of `fetch_activity` (src/github.rs:237-246): if the base
data has a user, replace the three connections' node lists with the drained
lists; everything else is untouched. -/
def merge_nodes (base_data : ResponseData) (issues : List IssueNode)
    (prs : List PullRequestNode) (pr_reviews : List PullRequestReviewNode) :
    ResponseData :=
  match base_data.user with
  | none => base_data
  | some u =>
    { user := some { u with contributions_collection :=
        { u.contributions_collection with
          issue_contributions :=
            { u.contributions_collection.issue_contributions with
              nodes := some issues },
          pull_request_contributions :=
            { u.contributions_collection.pull_request_contributions with
              nodes := some prs },
          pull_request_review_contributions :=
            { u.contributions_collection.pull_request_review_contributions with
              nodes := some pr_reviews } } } }

/-- Embeds `fetch_activity` (src/github.rs:184-250).  The base request is issued
first; on any base failure nothing else runs.  Then the three drains run
(concurrently in the source — they share no state, so their outcomes and
request traces are independent of scheduling) and are checked in the source's
`?`-order: issues, PRs, PR reviews.  A panic inside any drain propagates out
of the `join!` before any `?` runs, and a drain that never finishes keeps the
`join!` pending, so `panic` and `diverge` take precedence over the classified
errors.  The second component is the list of every request's variables:
the base request followed by the three drains' requests. -/
def fetch_activity (username fromDate toDate : String) (server : Server)
    (fuel : Nat) : ActivityOutcome × List Variables :=
  let bv := base_variables username fromDate toDate
  match server.base with
  | .transportErr => (.err (.base .transport), [bv])
  | .decodeErr => (.err (.base .decode), [bv])
  | .ok (some msgs) _ => (.err (.base (.protocol msgs)), [bv])
  | .ok none none => (.err (.base .integrity), [bv])
  | .ok none (some base_data) =>
    let ri := fetch_issue_nodes username fromDate toDate 10 server.issues fuel
    let rp := fetch_pr_nodes username fromDate toDate 10 server.prs fuel
    let rr := fetch_pr_review_nodes username fromDate toDate 10 server.reviews fuel
    (match ri.1, rp.1, rr.1 with
     | .panic, _, _ => .panic
     | _, .panic, _ => .panic
     | _, _, .panic => .panic
     | .diverge, _, _ => .diverge
     | _, .diverge, _ => .diverge
     | _, _, .diverge => .diverge
     | .err e, _, _ => .err (.issues e)
     | _, .err e, _ => .err (.prs e)
     | _, _, .err e => .err (.reviews e)
     | .ok issues, .ok prs, .ok pr_reviews =>
       .ok (merge_nodes base_data issues prs pr_reviews),
     bv :: (ri.2 ++ rp.2 ++ rr.2))

/-- Rust `str::starts_with` (a prefix test on the character sequence),
embedded over the string's character list so that it evaluates by kernel
reduction (`String.startsWith` in core does not). -/
def str_starts_with (s pre : String) : Bool :=
  pre.data.isPrefixOf s.data

/-- Embeds `filter_activity` (src/filter.rs:7-38): keep only the commit-contribution
entries matching the repo filter (exact `nameWithOwner` match) and then only
those matching the org filter (`nameWithOwner` starts with `"<org>/"`);
everything else, and the whole value when there is no user, is unchanged. -/
def filter_activity (activity : ResponseData)
    (repo_filter org_filter : Option String) : ResponseData :=
  match activity.user with
  | none => activity
  | some user =>
    let repos0 := user.contributions_collection.commit_contributions_by_repository
    let repos1 := match repo_filter with
      | some rf => repos0.filter fun rc => rc.repository.name_with_owner == rf
      | none => repos0
    let repos2 := match org_filter with
      | some og => repos1.filter fun rc =>
          str_starts_with rc.repository.name_with_owner (og ++ "/")
      | none => repos1
    { user := some { user with contributions_collection :=
        { user.contributions_collection with
          commit_contributions_by_repository := repos2 } } }

/-- Shape of the request trace of the drain loop: every request is built by
`build_vars`, the first one from the cursor the loop was entered with, and
each later one from the `endCursor` of the previous (necessarily well-formed
and continuing) reply. -/
lemma fetch_all_nodes_aux_trace_shape {T P : Type}
    (b : Option String → Variables)
    (ex : ResponseData → Option (Option (List T) × P))
    (epi : P → Option String × Bool) (s : Nat → Reply) :
    ∀ (fuel i : Nat) (cursor : Option String) (acc : List T),
      ∃ cs : List (Option String),
        (fetch_all_nodes_aux b ex epi s fuel i cursor acc).2 = cs.map b ∧
        (cs ≠ [] → cs.get? 0 = some cursor) ∧
        ∀ j, j + 1 < cs.length → ∃ d nop p,
          s (i + j) = .ok none (some d) ∧ ex d = some (nop, p) ∧
          (epi p).2 = true ∧ cs.get? (j + 1) = some ((epi p).1) := by
  intro fuel
  induction fuel with
  | zero =>
    intro i cursor acc
    exact ⟨[], rfl, by simp, by simp⟩
  | succ fuel ih =>
    intro i cursor acc
    match hsi : s i with
    | .transportErr =>
      refine ⟨[cursor], ?_, by simp, by simp⟩
      rw [fetch_all_nodes_aux_transport b ex epi s hsi fuel cursor acc]
      simp
    | .decodeErr =>
      refine ⟨[cursor], ?_, by simp, by simp⟩
      rw [fetch_all_nodes_aux_decode b ex epi s hsi fuel cursor acc]
      simp
    | .ok (some msgs) dopt =>
      refine ⟨[cursor], ?_, by simp, by simp⟩
      rw [fetch_all_nodes_aux_protocol b ex epi s hsi fuel cursor acc]
      simp
    | .ok none none =>
      refine ⟨[cursor], ?_, by simp, by simp⟩
      rw [fetch_all_nodes_aux_integrity b ex epi s hsi fuel cursor acc]
      simp
    | .ok none (some d) =>
      match hex : ex d with
      | none =>
        refine ⟨[cursor], ?_, by simp, by simp⟩
        rw [fetch_all_nodes_aux_panic b ex epi s hsi hex fuel cursor acc]
        simp
      | some (nop, p) =>
        match hepi : epi p with
        | (ec, false) =>
          refine ⟨[cursor], ?_, by simp, by simp⟩
          rw [fetch_all_nodes_aux_stop b ex epi s hsi hex hepi fuel cursor acc]
          simp
        | (ec, true) =>
          obtain ⟨cs', htr, hhead, hthread⟩ := ih (i + 1) ec (acc ++ nop.getD [])
          refine ⟨cursor :: cs', ?_, by simp, ?_⟩
          · rw [fetch_all_nodes_aux_continue b ex epi s hsi hex hepi fuel cursor acc]
            simp [htr]
          · intro j hj
            match j with
            | 0 =>
              refine ⟨d, nop, p, by simpa using hsi, hex, by simp [hepi], ?_⟩
              have hne : cs' ≠ [] := by
                intro hcs
                subst hcs
                simp at hj
              have := hhead hne
              simp only [List.get?]
              rw [this, hepi]
            | k + 1 =>
              have hk : k + 1 < cs'.length := by
                simpa using hj
              obtain ⟨d2, nop2, p2, h1, h2, h3, h4⟩ := hthread k hk
              refine ⟨d2, nop2, p2, ?_, h2, h3, ?_⟩
              · have hidx : i + 1 + k = i + (k + 1) := by omega
                rw [hidx] at h1
                exact h1
              · simpa using h4

lemma flatten_length_of_uniform {T : Type} (front : List (List T)) (N : Nat)
    (hN : ∀ pg ∈ front, pg.length = N) :
    front.flatten.length = front.length * N := by
  induction front with
  | nil => simp
  | cons pg pgs ih =>
    have hpg : pg.length = N := hN pg (by simp)
    have hpgs : ∀ q ∈ pgs, q.length = N := fun q hq => hN q (by simp [hq])
    simp [ih hpgs, hpg, Nat.succ_mul, Nat.add_comm]

/-- C1: for a server delivering a connection across `K = front.length + 1`
well-formed, error-free pages — the first `K - 1` of size `N` each reporting
a further page, the last of size `r` reporting no further page —
`fetch_all_nodes` returns the concatenation of the pages' node lists in
page-arrival order, whose length is `(K-1)*N + r`, and issues exactly `K`
requests.  With `front = []` this specialises to: a first page with
`hasNextPage = false` costs exactly one request and its nodes are returned
unchanged. -/
theorem fetch_all_nodes_drain_correct {T P : Type}
    (b : Option String → Variables)
    (ex : ResponseData → Option (Option (List T) × P))
    (epi : P → Option String × Bool) (s : Nat → Reply)
    (front : List (List T)) (lastPage : List T)
    (cursors : List (Option String)) (N r fuel : Nat)
    (hlen : cursors.length = front.length)
    (hblock : goodBlock ex epi s 0 front cursors)
    (hlast : ∃ d p ec, s front.length = .ok none (some d) ∧
      ex d = some (some lastPage, p) ∧ epi p = (ec, false))
    (hfuel : front.length + 1 ≤ fuel)
    (hN : ∀ pg ∈ front, pg.length = N)
    (hr : lastPage.length = r) :
    fetch_all_nodes b ex epi s fuel =
      (.ok ((front ++ [lastPage]).flatten),
       ((none :: cursors).dropLast).map b ++ [b (cursors.getLastD none)]) ∧
    ((front ++ [lastPage]).flatten).length = front.length * N + r ∧
    (((none :: cursors).dropLast).map b ++ [b (cursors.getLastD none)]).length
      = front.length + 1 := by
  obtain ⟨d, p, ec, hs, hex, hepi⟩ := hlast
  have hfuel2 : fuel = front.length + (fuel - front.length - 1 + 1) := by omega
  refine ⟨?_, ?_, ?_⟩
  · rw [fetch_all_nodes, hfuel2,
      fetch_all_nodes_aux_block b ex epi s front cursors
        (fuel - front.length - 1 + 1) 0 none [] hlen hblock,
      fetch_all_nodes_aux_stop b ex epi s (by simpa using hs) hex hepi
        (fuel - front.length - 1) (cursors.getLastD none) ([] ++ front.flatten)]
    simp
  · have hflat : (front ++ [lastPage]).flatten = front.flatten ++ lastPage := by
      simp
    rw [hflat, List.length_append, flatten_length_of_uniform front N hN, hr]
  · simp [List.length_dropLast, hlen]

/-- A fixed repository/issue payload used by concrete server scenarios. -/
def sampleRepo : Repository :=
  { name_with_owner := "owner/repo1", updated_at := "2025-03-01T00:00:00Z" }

def sampleIssueNode (n : Int) : IssueNode :=
  { issue := { number := n, title := "Issue", url := "http://example.com/issue",
               created_at := "2025-03-01T00:00:00Z", state := "open",
               closed_at := none, repository := sampleRepo } }

def samplePrNode (n : Int) : PullRequestNode :=
  { pull_request := { number := n, title := "PR", url := "http://example.com/pr",
                      created_at := "2025-03-01T00:00:00Z", state := "open",
                      merged := false, merged_at := none, closed_at := none,
                      repository := sampleRepo } }

def samplePrReviewNode (n : Int) : PullRequestReviewNode :=
  { occurred_at := "2025-03-01T00:00:00Z",
    pull_request_review :=
      { created_at := "2025-03-01T00:00:00Z",
        pull_request := { number := n, title := "PR",
                          url := "http://example.com/pr",
                          created_at := "2025-03-01T00:00:00Z",
                          state := "open" } } }

/-- A full response body carrying the given payloads for the three
connections (like the test helper `build_full_response` in the source). -/
def sampleData (tc : Int)
    (inodes : Option (List IssueNode)) (ipi : PageInfo)
    (pnodes : Option (List PullRequestNode)) (ppi : PageInfo)
    (rnodes : Option (List PullRequestReviewNode)) (rpi : PageInfo) :
    ResponseData :=
  { user := some { contributions_collection :=
      { total_commit_contributions := tc,
        total_issue_contributions := 0,
        total_pull_request_contributions := 0,
        total_pull_request_review_contributions := 0,
        contribution_calendar := { total_contributions := 0, weeks := [] },
        commit_contributions_by_repository := [],
        issue_contributions := { total_count := 0, page_info := ipi, nodes := inodes },
        pull_request_contributions := { total_count := 0, page_info := ppi, nodes := pnodes },
        pull_request_review_contributions := { total_count := 0, page_info := rpi, nodes := rnodes } } } }

/-- A response body exposing only an issue page. -/
def issuePageData (inodes : Option (List IssueNode)) (ipi : PageInfo) :
    ResponseData :=
  sampleData 0 inodes ipi none ⟨none, false⟩ none ⟨none, false⟩

/-- Server of the C1 witness scenario: page 1 holds two issue nodes and a
next-page cursor, page 2 holds one issue node and no next page. -/
def c1Server : Nat → Reply := fun i =>
  if i = 0 then
    .ok none (some (issuePageData (some [sampleIssueNode 1, sampleIssueNode 2])
      ⟨some "cursor1", true⟩))
  else
    .ok none (some (issuePageData (some [sampleIssueNode 3]) ⟨none, false⟩))

/-- Witness for C1: a concrete 2-page drain (`K = 2`, `N = 2`, `r = 1`)
returns the three nodes in order and issues exactly 2 requests. -/
theorem fetch_all_nodes_drain_correct_witness :
    fetch_all_nodes (build_issue_vars "alice" "2025-01-01T00:00:00+00:00"
        "2025-02-01T00:00:00+00:00" 10) extract_issue extract_page_info_pair
        c1Server 2 =
      (.ok (([[sampleIssueNode 1, sampleIssueNode 2], [sampleIssueNode 3]] :
              List (List IssueNode)).flatten),
       ((none :: [some "cursor1"]).dropLast).map
          (build_issue_vars "alice" "2025-01-01T00:00:00+00:00"
            "2025-02-01T00:00:00+00:00" 10) ++
        [build_issue_vars "alice" "2025-01-01T00:00:00+00:00"
          "2025-02-01T00:00:00+00:00" 10 ([some "cursor1"].getLastD none)]) ∧
    (([[sampleIssueNode 1, sampleIssueNode 2], [sampleIssueNode 3]] :
        List (List IssueNode)).flatten).length = 1 * 2 + 1 ∧
    ((((none :: [some "cursor1"]).dropLast).map
        (build_issue_vars "alice" "2025-01-01T00:00:00+00:00"
          "2025-02-01T00:00:00+00:00" 10)) ++
      [build_issue_vars "alice" "2025-01-01T00:00:00+00:00"
        "2025-02-01T00:00:00+00:00" 10 ([some "cursor1"].getLastD none)]).length
      = 1 + 1 := by
  have h := fetch_all_nodes_drain_correct
    (build_issue_vars "alice" "2025-01-01T00:00:00+00:00"
      "2025-02-01T00:00:00+00:00" 10)
    extract_issue extract_page_info_pair c1Server
    [[sampleIssueNode 1, sampleIssueNode 2]] [sampleIssueNode 3]
    [some "cursor1"] 2 1 2
    rfl
    (by
      intro j hj
      match j, hj with
      | 0, _ =>
        exact ⟨issuePageData (some [sampleIssueNode 1, sampleIssueNode 2])
            ⟨some "cursor1", true⟩,
          ⟨some "cursor1", true⟩, [sampleIssueNode 1, sampleIssueNode 2],
          some "cursor1", rfl, rfl, rfl, rfl, rfl⟩)
    ⟨issuePageData (some [sampleIssueNode 3]) ⟨none, false⟩,
      ⟨none, false⟩, none, rfl, rfl, rfl⟩
    (by simp)
    (by intro pg hpg; simp only [List.mem_singleton] at hpg; subst hpg; rfl)
    rfl
  simpa using h

/-- The malformed-but-possible server state of C2: every reply is well-formed,
error-free, carries an empty node list, and reports `hasNextPage = true` with
`endCursor` absent. -/
def loopServer : Nat → Reply := fun _ =>
  .ok none (some (issuePageData (some []) ⟨none, true⟩))

lemma loopServer_aux_diverges (u f t : String) (fst : Int) :
    ∀ (fuel i : Nat) (acc : List IssueNode),
      fetch_all_nodes_aux (build_issue_vars u f t fst) extract_issue
          extract_page_info_pair loopServer fuel i none acc =
        (.diverge,
         List.replicate fuel (build_issue_vars u f t fst none)) := by
  intro fuel
  induction fuel with
  | zero => intro i acc; rfl
  | succ fuel ih =>
    intro i acc
    have hs : loopServer i =
        .ok none (some (issuePageData (some []) ⟨none, true⟩)) := rfl
    have hstep := fetch_all_nodes_aux_continue
      (build_issue_vars u f t fst) extract_issue extract_page_info_pair
      loopServer hs rfl rfl fuel none acc
    rw [hstep, ih (i + 1) (acc ++ (some ([] : List IssueNode)).getD [])]
    simp [List.replicate_succ]

/-- C2 (code bug): against `loopServer`, the drain never fails with a
protocol error (nor any other classified error) — for every request budget
`fuel` it is still looping, having issued exactly `fuel` requests, each time
re-sending the request with an absent cursor (`cursor = end_cursor = none`).
The code therefore issues an unbounded number of requests in this state
instead of treating it as a protocol error. -/
theorem fetch_all_nodes_loops_on_absent_cursor (u f t : String) (fst : Int)
    (fuel : Nat) :
    (fetch_issue_nodes u f t fst loopServer fuel).1 = .diverge ∧
    (∀ e, (fetch_issue_nodes u f t fst loopServer fuel).1 ≠ .err e) ∧
    (fetch_issue_nodes u f t fst loopServer fuel).2.length = fuel ∧
    ∀ v ∈ (fetch_issue_nodes u f t fst loopServer fuel).2,
      v = build_issue_vars u f t fst none := by
  have h := loopServer_aux_diverges u f t fst fuel 0 []
  rw [fetch_issue_nodes, fetch_all_nodes, h]
  refine ⟨rfl, by simp, by simp, ?_⟩
  intro v hv
  exact List.eq_of_mem_replicate hv

/-- C6: after any number of well-formed, continuing pages, a reply whose
`errors` list is present (in particular non-empty) makes the drain fail
immediately with `ProtocolError`: no nodes are returned (the accumulator
gathered so far is discarded), and no further request is issued.  At the
orchestrator, a base reply carrying such an `errors` list likewise fails the
whole call. -/
theorem fetch_all_nodes_protocol_error_discards {T P : Type}
    (b : Option String → Variables)
    (ex : ResponseData → Option (Option (List T) × P))
    (epi : P → Option String × Bool) (s : Nat → Reply)
    (pages : List (List T)) (cursors : List (Option String))
    (msgs : List String) (dopt : Option ResponseData) (fuel : Nat)
    (hlen : cursors.length = pages.length)
    (hblock : goodBlock ex epi s 0 pages cursors)
    (hmsgs : msgs ≠ [])
    (herr : s pages.length = .ok (some msgs) dopt)
    (hfuel : pages.length + 1 ≤ fuel) :
    (fetch_all_nodes b ex epi s fuel).1 = .err (.protocol msgs) ∧
    (∀ ns, (fetch_all_nodes b ex epi s fuel).1 ≠ .ok ns) ∧
    (fetch_all_nodes b ex epi s fuel).2.length = pages.length + 1 ∧
    (∀ (u f t : String) (server : Server) (fuel2 : Nat)
       (dopt2 : Option ResponseData), server.base = .ok (some msgs) dopt2 →
       (fetch_activity u f t server fuel2).1 = .err (.base (.protocol msgs))) := by
  have hfuel2 : fuel = pages.length + (fuel - pages.length - 1 + 1) := by omega
  have hrun : fetch_all_nodes b ex epi s fuel =
      (.err (.protocol msgs),
       ((none :: cursors).dropLast).map b ++ [b (cursors.getLastD none)]) := by
    rw [fetch_all_nodes, hfuel2,
      fetch_all_nodes_aux_block b ex epi s pages cursors
        (fuel - pages.length - 1 + 1) 0 none [] hlen hblock,
      fetch_all_nodes_aux_protocol b ex epi s (by simpa using herr)
        (fuel - pages.length - 1) (cursors.getLastD none) ([] ++ pages.flatten)]
  refine ⟨by rw [hrun], by rw [hrun]; simp, ?_, ?_⟩
  · rw [hrun]
    simp [List.length_dropLast, hlen]
  · intro u f t server fuel2 dopt2 hb
    simp [fetch_activity, hb]

/-- C7: after any number of well-formed, continuing pages, a reply with
`data = null` and `errors` absent makes the drain fail with the integrity
error ("No data received"), which is a different `FetchError` constructor
from every protocol error; the base request of `fetch_activity` fails the
same way, issuing no drain request. -/
theorem null_data_fails_integrity {T P : Type}
    (b : Option String → Variables)
    (ex : ResponseData → Option (Option (List T) × P))
    (epi : P → Option String × Bool) (s : Nat → Reply)
    (pages : List (List T)) (cursors : List (Option String)) (fuel : Nat)
    (hlen : cursors.length = pages.length)
    (hblock : goodBlock ex epi s 0 pages cursors)
    (hnull : s pages.length = .ok none none)
    (hfuel : pages.length + 1 ≤ fuel) :
    (fetch_all_nodes b ex epi s fuel).1 = .err .integrity ∧
    (∀ msgs, (FetchError.integrity ≠ FetchError.protocol msgs)) ∧
    (∀ (u f t : String) (server : Server) (fuel2 : Nat),
       server.base = .ok none none →
       fetch_activity u f t server fuel2 =
         (.err (.base .integrity), [base_variables u f t])) := by
  have hfuel2 : fuel = pages.length + (fuel - pages.length - 1 + 1) := by omega
  have hrun : fetch_all_nodes b ex epi s fuel =
      (.err .integrity,
       ((none :: cursors).dropLast).map b ++ [b (cursors.getLastD none)]) := by
    rw [fetch_all_nodes, hfuel2,
      fetch_all_nodes_aux_block b ex epi s pages cursors
        (fuel - pages.length - 1 + 1) 0 none [] hlen hblock,
      fetch_all_nodes_aux_integrity b ex epi s (by simpa using hnull)
        (fuel - pages.length - 1) (cursors.getLastD none) ([] ++ pages.flatten)]
  refine ⟨by rw [hrun], ?_, ?_⟩
  · intro msgs h
    cases h
  · intro u f t server fuel2 hb
    simp [fetch_activity, hb]

/-- Server of the C6 witness: one good issue page with a next-page cursor,
then a reply with a non-empty `errors` list. -/
def c6Server : Nat → Reply := fun i =>
  if i = 0 then
    .ok none (some (issuePageData (some [sampleIssueNode 1])
      ⟨some "cursor1", true⟩))
  else
    .ok (some ["boom"]) none

/-- Witness for C6: the one already-accumulated node is discarded, the drain
errs with the protocol error after exactly 2 requests. -/
theorem fetch_all_nodes_protocol_error_discards_witness :
    (fetch_all_nodes (build_issue_vars "alice" "2025-01-01T00:00:00+00:00"
        "2025-02-01T00:00:00+00:00" 10) extract_issue extract_page_info_pair
        c6Server 2).1 = .err (.protocol ["boom"]) ∧
    (∀ ns, (fetch_all_nodes (build_issue_vars "alice" "2025-01-01T00:00:00+00:00"
        "2025-02-01T00:00:00+00:00" 10) extract_issue extract_page_info_pair
        c6Server 2).1 ≠ .ok ns) ∧
    (fetch_all_nodes (build_issue_vars "alice" "2025-01-01T00:00:00+00:00"
        "2025-02-01T00:00:00+00:00" 10) extract_issue extract_page_info_pair
        c6Server 2).2.length = 1 + 1 ∧
    (∀ (u f t : String) (server : Server) (fuel2 : Nat)
       (dopt2 : Option ResponseData), server.base = .ok (some ["boom"]) dopt2 →
       (fetch_activity u f t server fuel2).1 =
         .err (.base (.protocol ["boom"]))) := by
  have h := fetch_all_nodes_protocol_error_discards
    (build_issue_vars "alice" "2025-01-01T00:00:00+00:00"
      "2025-02-01T00:00:00+00:00" 10)
    extract_issue extract_page_info_pair c6Server
    [[sampleIssueNode 1]] [some "cursor1"] ["boom"] none 2
    rfl
    (by
      intro j hj
      match j, hj with
      | 0, _ =>
        exact ⟨issuePageData (some [sampleIssueNode 1]) ⟨some "cursor1", true⟩,
          ⟨some "cursor1", true⟩, [sampleIssueNode 1], some "cursor1",
          rfl, rfl, rfl, rfl, rfl⟩)
    (by simp)
    rfl
    (by simp)
  simpa using h

/-- Server of the C7 witness: one good issue page with a next-page cursor,
then a reply with null `data` and absent `errors`. -/
def c7Server : Nat → Reply := fun i =>
  if i = 0 then
    .ok none (some (issuePageData (some [sampleIssueNode 1])
      ⟨some "cursor1", true⟩))
  else
    .ok none none

/-- Witness for C7 at a concrete two-request run. -/
theorem null_data_fails_integrity_witness :
    (fetch_all_nodes (build_issue_vars "alice" "2025-01-01T00:00:00+00:00"
        "2025-02-01T00:00:00+00:00" 10) extract_issue extract_page_info_pair
        c7Server 2).1 = .err .integrity ∧
    (∀ msgs, (FetchError.integrity ≠ FetchError.protocol msgs)) ∧
    (∀ (u f t : String) (server : Server) (fuel2 : Nat),
       server.base = .ok none none →
       fetch_activity u f t server fuel2 =
         (.err (.base .integrity), [base_variables u f t])) := by
  have h := null_data_fails_integrity
    (build_issue_vars "alice" "2025-01-01T00:00:00+00:00"
      "2025-02-01T00:00:00+00:00" 10)
    extract_issue extract_page_info_pair c7Server
    [[sampleIssueNode 1]] [some "cursor1"] 2
    rfl
    (by
      intro j hj
      match j, hj with
      | 0, _ =>
        exact ⟨issuePageData (some [sampleIssueNode 1]) ⟨some "cursor1", true⟩,
          ⟨some "cursor1", true⟩, [sampleIssueNode 1], some "cursor1",
          rfl, rfl, rfl, rfl, rfl⟩)
    rfl
    (by simp)
  simpa using h

/-- C9: a well-formed, error-free reply with non-null `data` whose `user`
field is null, arriving at any page of a drain (after any block of
well-formed, continuing pages), makes the extraction closure's `.unwrap()`
panic, for each of the three fetchers: the drain's outcome is the panic,
not any of the four classified error values. -/
theorem drain_panics_on_null_user (u f t : String) (fst : Int)
    (s1 s2 s3 : Nat → Reply) (fuel : Nat)
    (pages1 : List (List IssueNode)) (cursors1 : List (Option String))
    (pages2 : List (List PullRequestNode)) (cursors2 : List (Option String))
    (pages3 : List (List PullRequestReviewNode))
    (cursors3 : List (Option String))
    (d1 d2 d3 : ResponseData)
    (hlen1 : cursors1.length = pages1.length)
    (hblock1 : goodBlock extract_issue extract_page_info_pair s1 0
      pages1 cursors1)
    (h1 : s1 pages1.length = .ok none (some d1)) (hu1 : d1.user = none)
    (hfuel1 : pages1.length + 1 ≤ fuel)
    (hlen2 : cursors2.length = pages2.length)
    (hblock2 : goodBlock extract_pr extract_page_info_pair s2 0
      pages2 cursors2)
    (h2 : s2 pages2.length = .ok none (some d2)) (hu2 : d2.user = none)
    (hfuel2 : pages2.length + 1 ≤ fuel)
    (hlen3 : cursors3.length = pages3.length)
    (hblock3 : goodBlock extract_pr_review extract_page_info_pair s3 0
      pages3 cursors3)
    (h3 : s3 pages3.length = .ok none (some d3)) (hu3 : d3.user = none)
    (hfuel3 : pages3.length + 1 ≤ fuel) :
    ((fetch_issue_nodes u f t fst s1 fuel).1 = .panic ∧
     ∀ e, (fetch_issue_nodes u f t fst s1 fuel).1 ≠ .err e) ∧
    ((fetch_pr_nodes u f t fst s2 fuel).1 = .panic ∧
     ∀ e, (fetch_pr_nodes u f t fst s2 fuel).1 ≠ .err e) ∧
    ((fetch_pr_review_nodes u f t fst s3 fuel).1 = .panic ∧
     ∀ e, (fetch_pr_review_nodes u f t fst s3 fuel).1 ≠ .err e) := by
  have hex1 : extract_issue d1 = none := by simp [extract_issue, hu1]
  have hex2 : extract_pr d2 = none := by simp [extract_pr, hu2]
  have hex3 : extract_pr_review d3 = none := by simp [extract_pr_review, hu3]
  have hfa1 : fuel = pages1.length + (fuel - pages1.length - 1 + 1) := by
    omega
  have hfa2 : fuel = pages2.length + (fuel - pages2.length - 1 + 1) := by
    omega
  have hfa3 : fuel = pages3.length + (fuel - pages3.length - 1 + 1) := by
    omega
  have hrun1 : fetch_issue_nodes u f t fst s1 fuel =
      (.panic,
       ((none :: cursors1).dropLast).map (build_issue_vars u f t fst) ++
         [build_issue_vars u f t fst (cursors1.getLastD none)]) := by
    rw [fetch_issue_nodes, fetch_all_nodes, hfa1,
      fetch_all_nodes_aux_block (build_issue_vars u f t fst) extract_issue
        extract_page_info_pair s1 pages1 cursors1
        (fuel - pages1.length - 1 + 1) 0 none [] hlen1 hblock1,
      fetch_all_nodes_aux_panic (build_issue_vars u f t fst) extract_issue
        extract_page_info_pair s1 (by simpa using h1) hex1
        (fuel - pages1.length - 1) (cursors1.getLastD none)
        ([] ++ pages1.flatten)]
  have hrun2 : fetch_pr_nodes u f t fst s2 fuel =
      (.panic,
       ((none :: cursors2).dropLast).map (build_pr_vars u f t fst) ++
         [build_pr_vars u f t fst (cursors2.getLastD none)]) := by
    rw [fetch_pr_nodes, fetch_all_nodes, hfa2,
      fetch_all_nodes_aux_block (build_pr_vars u f t fst) extract_pr
        extract_page_info_pair s2 pages2 cursors2
        (fuel - pages2.length - 1 + 1) 0 none [] hlen2 hblock2,
      fetch_all_nodes_aux_panic (build_pr_vars u f t fst) extract_pr
        extract_page_info_pair s2 (by simpa using h2) hex2
        (fuel - pages2.length - 1) (cursors2.getLastD none)
        ([] ++ pages2.flatten)]
  have hrun3 : fetch_pr_review_nodes u f t fst s3 fuel =
      (.panic,
       ((none :: cursors3).dropLast).map (build_pr_review_vars u f t fst) ++
         [build_pr_review_vars u f t fst (cursors3.getLastD none)]) := by
    rw [fetch_pr_review_nodes, fetch_all_nodes, hfa3,
      fetch_all_nodes_aux_block (build_pr_review_vars u f t fst)
        extract_pr_review extract_page_info_pair s3 pages3 cursors3
        (fuel - pages3.length - 1 + 1) 0 none [] hlen3 hblock3,
      fetch_all_nodes_aux_panic (build_pr_review_vars u f t fst)
        extract_pr_review extract_page_info_pair s3 (by simpa using h3) hex3
        (fuel - pages3.length - 1) (cursors3.getLastD none)
        ([] ++ pages3.flatten)]
  exact ⟨⟨by rw [hrun1], by rw [hrun1]; simp⟩,
    ⟨by rw [hrun2], by rw [hrun2]; simp⟩,
    ⟨by rw [hrun3], by rw [hrun3]; simp⟩⟩

/-- A well-formed reply whose `data` is present but whose `user` is null
(the fallback body `{"data":{"user":null}}` of the source's test server). -/
def nullUserServer : Nat → Reply := fun _ =>
  .ok none (some { user := none })

/-- Server of the C9 witness's issue drain: a good first page with a
next-page cursor, then a reply whose `user` is null. -/
def c9Server : Nat → Reply := fun i =>
  if i = 0 then
    .ok none (some (issuePageData (some [sampleIssueNode 1])
      ⟨some "cursor1", true⟩))
  else
    .ok none (some { user := none })

/-- Witness for C9: the issue drain panics on its second page (after one
good page), the PR and review drains on their first. -/
theorem drain_panics_on_null_user_witness :
    ((fetch_issue_nodes "alice" "f0" "t0" 10 c9Server 2).1 = .panic ∧
     ∀ e, (fetch_issue_nodes "alice" "f0" "t0" 10 c9Server 2).1 ≠ .err e) ∧
    ((fetch_pr_nodes "alice" "f0" "t0" 10 nullUserServer 2).1 = .panic ∧
     ∀ e, (fetch_pr_nodes "alice" "f0" "t0" 10 nullUserServer 2).1 ≠
       .err e) ∧
    ((fetch_pr_review_nodes "alice" "f0" "t0" 10 nullUserServer 2).1 =
       .panic ∧
     ∀ e, (fetch_pr_review_nodes "alice" "f0" "t0" 10 nullUserServer 2).1 ≠
       .err e) := by
  have h := drain_panics_on_null_user "alice" "f0" "t0" 10
    c9Server nullUserServer nullUserServer 2
    [[sampleIssueNode 1]] [some "cursor1"] [] [] [] []
    { user := none } { user := none } { user := none }
    rfl
    (by
      intro j hj
      match j, hj with
      | 0, _ =>
        exact ⟨issuePageData (some [sampleIssueNode 1]) ⟨some "cursor1", true⟩,
          ⟨some "cursor1", true⟩, [sampleIssueNode 1], some "cursor1",
          rfl, rfl, rfl, rfl, rfl⟩)
    rfl rfl (by simp)
    rfl (by intro j hj; simp at hj) rfl rfl (by simp)
    rfl (by intro j hj; simp at hj) rfl rfl (by simp)
  exact h

/-- C5: the summary (base) request is always the first request issued by
`fetch_activity`, with the fixed first-page size 10 for all three connections
and no cursors; and whenever the base reply carries protocol errors or null
data, the whole call fails with the corresponding base error and the request
trace is exactly the single base request — no drain request is ever issued. -/
theorem fetch_activity_summary_gate (u f t : String) (server : Server)
    (fuel : Nat) :
    ((fetch_activity u f t server fuel).2.get? 0 =
      some (base_variables u f t)) ∧
    ((base_variables u f t).issues_first = 10 ∧
     (base_variables u f t).issues_after = none ∧
     (base_variables u f t).prs_first = 10 ∧
     (base_variables u f t).prs_after = none ∧
     (base_variables u f t).pr_reviews_first = 10 ∧
     (base_variables u f t).pr_reviews_after = none) ∧
    (∀ msgs dopt, server.base = .ok (some msgs) dopt →
      fetch_activity u f t server fuel =
        (.err (.base (.protocol msgs)), [base_variables u f t])) ∧
    (server.base = .ok none none →
      fetch_activity u f t server fuel =
        (.err (.base .integrity), [base_variables u f t])) := by
  refine ⟨?_, ⟨rfl, rfl, rfl, rfl, rfl, rfl⟩, ?_, ?_⟩
  · match hb : server.base with
    | .transportErr => simp [fetch_activity, hb]
    | .decodeErr => simp [fetch_activity, hb]
    | .ok (some msgs) dopt => simp [fetch_activity, hb]
    | .ok none none => simp [fetch_activity, hb]
    | .ok none (some bd) => simp [fetch_activity, hb]
  · intro msgs dopt hb
    simp [fetch_activity, hb]
  · intro hb
    simp [fetch_activity, hb]

/-- A server whose base reply carries a protocol error. -/
def c5Server : Server :=
  { base := .ok (some ["base boom"]) none,
    issues := fun _ => .ok none none,
    prs := fun _ => .ok none none,
    reviews := fun _ => .ok none none }

/-- Witness for C5: at `c5Server` the whole call fails on the base reply and
exactly one request (the base request) was issued. -/
theorem fetch_activity_summary_gate_witness :
    fetch_activity "alice" "2025-01-01T00:00:00+00:00"
        "2025-02-01T00:00:00+00:00" c5Server 5 =
      (.err (.base (.protocol ["base boom"])),
       [base_variables "alice" "2025-01-01T00:00:00+00:00"
          "2025-02-01T00:00:00+00:00"]) :=
  (fetch_activity_summary_gate "alice" "2025-01-01T00:00:00+00:00"
    "2025-02-01T00:00:00+00:00" c5Server 5).2.2.1 ["base boom"] none rfl

/-- C3: when the base request succeeds and all three drains succeed,
`fetch_activity` returns the merge of the base data with the three drained
node lists; the merge overwrites only the three connections' `nodes` fields
(every scalar, the calendar, the per-repository commit list, and each
connection's `totalCount`/`pageInfo` stay exactly as decoded from the single
summary request), and the total request count is 1 (summary) plus the number
of pages drained per connection. -/
theorem fetch_activity_merge_frame (u f t : String) (server : Server)
    (fuel : Nat) (bd : ResponseData) (isL : List IssueNode)
    (psL : List PullRequestNode) (rsL : List PullRequestReviewNode)
    (vi vp vr : List Variables)
    (hbase : server.base = .ok none (some bd))
    (hi : fetch_issue_nodes u f t 10 server.issues fuel = (.ok isL, vi))
    (hp : fetch_pr_nodes u f t 10 server.prs fuel = (.ok psL, vp))
    (hr : fetch_pr_review_nodes u f t 10 server.reviews fuel = (.ok rsL, vr)) :
    fetch_activity u f t server fuel =
      (.ok (merge_nodes bd isL psL rsL),
       base_variables u f t :: (vi ++ vp ++ vr)) ∧
    (fetch_activity u f t server fuel).2.length =
      1 + (vi.length + vp.length + vr.length) ∧
    (bd.user = none → merge_nodes bd isL psL rsL = bd) ∧
    ∀ bu, bd.user = some bu → ∃ mu,
      (merge_nodes bd isL psL rsL).user = some mu ∧
      mu.contributions_collection.total_commit_contributions =
        bu.contributions_collection.total_commit_contributions ∧
      mu.contributions_collection.total_issue_contributions =
        bu.contributions_collection.total_issue_contributions ∧
      mu.contributions_collection.total_pull_request_contributions =
        bu.contributions_collection.total_pull_request_contributions ∧
      mu.contributions_collection.total_pull_request_review_contributions =
        bu.contributions_collection.total_pull_request_review_contributions ∧
      mu.contributions_collection.contribution_calendar =
        bu.contributions_collection.contribution_calendar ∧
      mu.contributions_collection.commit_contributions_by_repository =
        bu.contributions_collection.commit_contributions_by_repository ∧
      mu.contributions_collection.issue_contributions.total_count =
        bu.contributions_collection.issue_contributions.total_count ∧
      mu.contributions_collection.issue_contributions.page_info =
        bu.contributions_collection.issue_contributions.page_info ∧
      mu.contributions_collection.issue_contributions.nodes = some isL ∧
      mu.contributions_collection.pull_request_contributions.total_count =
        bu.contributions_collection.pull_request_contributions.total_count ∧
      mu.contributions_collection.pull_request_contributions.page_info =
        bu.contributions_collection.pull_request_contributions.page_info ∧
      mu.contributions_collection.pull_request_contributions.nodes =
        some psL ∧
      mu.contributions_collection.pull_request_review_contributions.total_count =
        bu.contributions_collection.pull_request_review_contributions.total_count ∧
      mu.contributions_collection.pull_request_review_contributions.page_info =
        bu.contributions_collection.pull_request_review_contributions.page_info ∧
      mu.contributions_collection.pull_request_review_contributions.nodes =
        some rsL := by
  have hact : fetch_activity u f t server fuel =
      (.ok (merge_nodes bd isL psL rsL),
       base_variables u f t :: (vi ++ vp ++ vr)) := by
    simp [fetch_activity, hbase, hi, hp, hr]
  refine ⟨hact, by rw [hact]; simp [Nat.add_comm, Nat.add_assoc], ?_, ?_⟩
  · intro hnone
    simp [merge_nodes, hnone]
  · intro bu hbu
    obtain ⟨ou⟩ := bd
    simp only at hbu
    subst hbu
    exact ⟨_, rfl, rfl, rfl, rfl, rfl, rfl, rfl, rfl, rfl, rfl, rfl, rfl,
      rfl, rfl, rfl, rfl⟩

/-- C4: for every run in which the base request succeeds, each drain either
succeeds or fails with a classified error, and at least one of the three
drains fails, `fetch_activity` returns a single error naming a connection
kind that did fail — the first failing one in the source's `?`-check order
(issues, then PRs, then PR reviews) — and no merged result is returned: the
succeeded drains' results are discarded (all-or-nothing). -/
theorem fetch_activity_all_or_nothing (u f t : String) (server : Server)
    (fuel : Nat) (bd : ResponseData)
    (hbase : server.base = .ok none (some bd))
    (h1 : (∃ l, (fetch_issue_nodes u f t 10 server.issues fuel).1 = .ok l) ∨
          (∃ e, (fetch_issue_nodes u f t 10 server.issues fuel).1 = .err e))
    (h2 : (∃ l, (fetch_pr_nodes u f t 10 server.prs fuel).1 = .ok l) ∨
          (∃ e, (fetch_pr_nodes u f t 10 server.prs fuel).1 = .err e))
    (h3 : (∃ l, (fetch_pr_review_nodes u f t 10 server.reviews fuel).1 =
            .ok l) ∨
          (∃ e, (fetch_pr_review_nodes u f t 10 server.reviews fuel).1 =
            .err e))
    (hfail :
      (∃ e, (fetch_issue_nodes u f t 10 server.issues fuel).1 = .err e) ∨
      (∃ e, (fetch_pr_nodes u f t 10 server.prs fuel).1 = .err e) ∨
      (∃ e, (fetch_pr_review_nodes u f t 10 server.reviews fuel).1 =
        .err e)) :
    ((∃ e, (fetch_issue_nodes u f t 10 server.issues fuel).1 = .err e ∧
       (fetch_activity u f t server fuel).1 = .err (.issues e)) ∨
     ((∃ l, (fetch_issue_nodes u f t 10 server.issues fuel).1 = .ok l) ∧
      ∃ e, (fetch_pr_nodes u f t 10 server.prs fuel).1 = .err e ∧
       (fetch_activity u f t server fuel).1 = .err (.prs e)) ∨
     ((∃ l, (fetch_issue_nodes u f t 10 server.issues fuel).1 = .ok l) ∧
      (∃ l, (fetch_pr_nodes u f t 10 server.prs fuel).1 = .ok l) ∧
      ∃ e, (fetch_pr_review_nodes u f t 10 server.reviews fuel).1 = .err e ∧
       (fetch_activity u f t server fuel).1 = .err (.reviews e))) ∧
    ∀ d, (fetch_activity u f t server fuel).1 ≠ .ok d := by
  rcases h1 with ⟨l1, he1⟩ | ⟨e1, he1⟩
  · rcases h2 with ⟨l2, he2⟩ | ⟨e2, he2⟩
    · rcases h3 with ⟨l3, he3⟩ | ⟨e3, he3⟩
      · exfalso
        rcases hfail with ⟨e, he⟩ | ⟨e, he⟩ | ⟨e, he⟩
        · rw [he1] at he
          cases he
        · rw [he2] at he
          cases he
        · rw [he3] at he
          cases he
      · have hact : (fetch_activity u f t server fuel).1 =
            .err (.reviews e3) := by
          simp [fetch_activity, hbase, he1, he2, he3]
        exact ⟨Or.inr (Or.inr ⟨⟨l1, he1⟩, ⟨l2, he2⟩, e3, he3, hact⟩),
          by rw [hact]; simp⟩
    · rcases h3 with ⟨l3, he3⟩ | ⟨e3, he3⟩ <;>
      · have hact : (fetch_activity u f t server fuel).1 =
            .err (.prs e2) := by
          simp [fetch_activity, hbase, he1, he2, he3]
        exact ⟨Or.inr (Or.inl ⟨⟨l1, he1⟩, e2, he2, hact⟩),
          by rw [hact]; simp⟩
  · rcases h2 with ⟨l2, he2⟩ | ⟨e2, he2⟩ <;>
      rcases h3 with ⟨l3, he3⟩ | ⟨e3, he3⟩ <;>
    · have hact : (fetch_activity u f t server fuel).1 =
          .err (.issues e1) := by
        simp [fetch_activity, hbase, he1, he2, he3]
      exact ⟨Or.inl ⟨e1, he1, hact⟩, by rw [hact]; simp⟩

/-- A response body exposing only a pull-request page. -/
def prPageData (pnodes : Option (List PullRequestNode)) (ppi : PageInfo) :
    ResponseData :=
  sampleData 0 none ⟨none, false⟩ pnodes ppi none ⟨none, false⟩

/-- A response body exposing only a review page. -/
def reviewPageData (rnodes : Option (List PullRequestReviewNode))
    (rpi : PageInfo) : ResponseData :=
  sampleData 0 none ⟨none, false⟩ none ⟨none, false⟩ rnodes rpi

/-- A one-page pull-request server. -/
def prServer1 : Nat → Reply := fun _ =>
  .ok none (some (prPageData (some [samplePrNode 101]) ⟨none, false⟩))

/-- A three-page review server. -/
def reviewServer3 : Nat → Reply := fun i =>
  if i = 0 then
    .ok none (some (reviewPageData (some [samplePrReviewNode 1])
      ⟨some "r1", true⟩))
  else if i = 1 then
    .ok none (some (reviewPageData (some [samplePrReviewNode 2])
      ⟨some "r2", true⟩))
  else
    .ok none (some (reviewPageData (some [samplePrReviewNode 3])
      ⟨none, false⟩))

/-- The summary reply of the C3 witness: `totalCommitContributions = 5` and
empty first pages. -/
def c3BaseData : ResponseData :=
  sampleData 5 (some []) ⟨none, false⟩ (some []) ⟨none, false⟩
    (some []) ⟨none, false⟩

def c3Server : Server :=
  { base := .ok none (some c3BaseData),
    issues := c1Server, prs := prServer1, reviews := reviewServer3 }

/-- Witness for C3: the spec's example — issues drain 2 pages, PRs 1 page,
reviews 3 pages — yields `1 + 2 + 1 + 3 = 7` requests and preserves
`totalCommitContributions = 5`. -/
theorem fetch_activity_merge_frame_witness :
    fetch_activity "alice" "f0" "t0" c3Server 3 =
      (.ok (merge_nodes c3BaseData
          [sampleIssueNode 1, sampleIssueNode 2, sampleIssueNode 3]
          [samplePrNode 101]
          [samplePrReviewNode 1, samplePrReviewNode 2, samplePrReviewNode 3]),
       base_variables "alice" "f0" "t0" ::
         ([build_issue_vars "alice" "f0" "t0" 10 none,
           build_issue_vars "alice" "f0" "t0" 10 (some "cursor1")] ++
          [build_pr_vars "alice" "f0" "t0" 10 none] ++
          [build_pr_review_vars "alice" "f0" "t0" 10 none,
           build_pr_review_vars "alice" "f0" "t0" 10 (some "r1"),
           build_pr_review_vars "alice" "f0" "t0" 10 (some "r2")])) ∧
    (fetch_activity "alice" "f0" "t0" c3Server 3).2.length = 7 ∧
    ∃ mu, (merge_nodes c3BaseData
        [sampleIssueNode 1, sampleIssueNode 2, sampleIssueNode 3]
        [samplePrNode 101]
        [samplePrReviewNode 1, samplePrReviewNode 2, samplePrReviewNode 3]).user
        = some mu ∧
      mu.contributions_collection.total_commit_contributions = 5 := by
  have h := fetch_activity_merge_frame "alice" "f0" "t0" c3Server 3
    c3BaseData
    [sampleIssueNode 1, sampleIssueNode 2, sampleIssueNode 3]
    [samplePrNode 101]
    [samplePrReviewNode 1, samplePrReviewNode 2, samplePrReviewNode 3]
    [build_issue_vars "alice" "f0" "t0" 10 none,
     build_issue_vars "alice" "f0" "t0" 10 (some "cursor1")]
    [build_pr_vars "alice" "f0" "t0" 10 none]
    [build_pr_review_vars "alice" "f0" "t0" 10 none,
     build_pr_review_vars "alice" "f0" "t0" 10 (some "r1"),
     build_pr_review_vars "alice" "f0" "t0" 10 (some "r2")]
    rfl (by decide) (by decide) (by decide)
  refine ⟨h.1, by rw [h.1]; rfl, ?_⟩
  obtain ⟨mu, hmu, h5, _⟩ := h.2.2.2
    { contributions_collection := c3BaseData.user.get rfl |>.contributions_collection } rfl
  exact ⟨mu, hmu, by rw [h5]; rfl⟩

/-- The C4 witness server: issues and PRs drain fully, the review drain hits
a protocol error on its second page. -/
def c4Server : Server :=
  { base := .ok none (some c3BaseData),
    issues := c1Server, prs := prServer1,
    reviews := fun i =>
      if i = 0 then
        .ok none (some (reviewPageData (some [samplePrReviewNode 1])
          ⟨some "r1", true⟩))
      else
        .ok (some ["review boom"]) none }

/-- Witness for C4: the PR-review drain fails after its first page while the
other two drains succeed; the call errs on the review connection and never
returns a merged result. -/
theorem fetch_activity_all_or_nothing_witness :
    ((∃ e, (fetch_issue_nodes "alice" "f0" "t0" 10 c4Server.issues 2).1 =
        .err e ∧
       (fetch_activity "alice" "f0" "t0" c4Server 2).1 = .err (.issues e)) ∨
     ((∃ l, (fetch_issue_nodes "alice" "f0" "t0" 10 c4Server.issues 2).1 =
        .ok l) ∧
      ∃ e, (fetch_pr_nodes "alice" "f0" "t0" 10 c4Server.prs 2).1 = .err e ∧
       (fetch_activity "alice" "f0" "t0" c4Server 2).1 = .err (.prs e)) ∨
     ((∃ l, (fetch_issue_nodes "alice" "f0" "t0" 10 c4Server.issues 2).1 =
        .ok l) ∧
      (∃ l, (fetch_pr_nodes "alice" "f0" "t0" 10 c4Server.prs 2).1 = .ok l) ∧
      ∃ e, (fetch_pr_review_nodes "alice" "f0" "t0" 10 c4Server.reviews 2).1 =
        .err e ∧
       (fetch_activity "alice" "f0" "t0" c4Server 2).1 =
         .err (.reviews e))) ∧
    ∀ d, (fetch_activity "alice" "f0" "t0" c4Server 2).1 ≠ .ok d :=
  fetch_activity_all_or_nothing "alice" "f0" "t0" c4Server 2 c3BaseData
    rfl
    (Or.inl ⟨[sampleIssueNode 1, sampleIssueNode 2, sampleIssueNode 3],
      by decide⟩)
    (Or.inl ⟨[samplePrNode 101], by decide⟩)
    (Or.inr ⟨.protocol ["review boom"], by decide⟩)
    (Or.inr (Or.inr ⟨.protocol ["review boom"], by decide⟩))

/-- Trace shape at the top level: the first request is built from an absent
cursor and request `j+1` is built from the `endCursor` of reply `j`. -/
lemma fetch_all_nodes_request_shape {T P : Type}
    (b : Option String → Variables)
    (ex : ResponseData → Option (Option (List T) × P))
    (epi : P → Option String × Bool) (s : Nat → Reply) (fuel : Nat) :
    (∀ v ∈ (fetch_all_nodes b ex epi s fuel).2, ∃ c, v = b c) ∧
    ((fetch_all_nodes b ex epi s fuel).2 ≠ [] →
      (fetch_all_nodes b ex epi s fuel).2.get? 0 = some (b none)) ∧
    (∀ j, j + 1 < (fetch_all_nodes b ex epi s fuel).2.length →
      ∃ d nop p, s j = .ok none (some d) ∧ ex d = some (nop, p) ∧
        (epi p).2 = true ∧
        (fetch_all_nodes b ex epi s fuel).2.get? (j + 1) =
          some (b ((epi p).1))) := by
  obtain ⟨cs, htr, hhead, hthread⟩ :=
    fetch_all_nodes_aux_trace_shape b ex epi s fuel 0 none []
  rw [fetch_all_nodes] at *
  rw [htr]
  refine ⟨?_, ?_, ?_⟩
  · intro v hv
    obtain ⟨c, _, hbc⟩ := List.mem_map.mp hv
    exact ⟨c, hbc.symm⟩
  · intro hne
    have hcs : cs ≠ [] := by
      intro h
      subst h
      simp at hne
    rw [List.get?_map, hhead hcs]
    rfl
  · intro j hj
    have hj' : j + 1 < cs.length := by simpa using hj
    obtain ⟨d, nop, p, h1, h2, h3, h4⟩ := hthread j hj'
    refine ⟨d, nop, p, by simpa using h1, h2, h3, ?_⟩
    rw [List.get?_map, h4]
    rfl

/-- C8: every request built during a drain carries the username, the two
date bounds, and all three `(first, after)` pairs; the two pairs not being
actively paginated carry the fixed page size and an absent cursor; the
active pair carries the fixed page size and the threaded cursor — absent on
the first request, and on request `j+1` the `endCursor` of (well-formed,
continuing) reply `j`.  Stated for each of the three fetchers. -/
theorem drain_request_variables (u f t : String) (fst : Int)
    (s1 s2 s3 : Nat → Reply) (fuel : Nat) :
    ((∀ v ∈ (fetch_issue_nodes u f t fst s1 fuel).2,
        v.username = u ∧ v.fromDate = f ∧ v.toDate = t ∧
        v.issues_first = fst ∧ v.prs_first = fst ∧ v.prs_after = none ∧
        v.pr_reviews_first = fst ∧ v.pr_reviews_after = none) ∧
     ((fetch_issue_nodes u f t fst s1 fuel).2 ≠ [] →
       (fetch_issue_nodes u f t fst s1 fuel).2.get? 0 =
         some (build_issue_vars u f t fst none)) ∧
     (∀ j, j + 1 < (fetch_issue_nodes u f t fst s1 fuel).2.length →
       ∃ d nop p, s1 j = .ok none (some d) ∧
         extract_issue d = some (nop, p) ∧ p.has_next_page = true ∧
         (fetch_issue_nodes u f t fst s1 fuel).2.get? (j + 1) =
           some (build_issue_vars u f t fst p.end_cursor))) ∧
    ((∀ v ∈ (fetch_pr_nodes u f t fst s2 fuel).2,
        v.username = u ∧ v.fromDate = f ∧ v.toDate = t ∧
        v.issues_first = fst ∧ v.issues_after = none ∧ v.prs_first = fst ∧
        v.pr_reviews_first = fst ∧ v.pr_reviews_after = none) ∧
     ((fetch_pr_nodes u f t fst s2 fuel).2 ≠ [] →
       (fetch_pr_nodes u f t fst s2 fuel).2.get? 0 =
         some (build_pr_vars u f t fst none)) ∧
     (∀ j, j + 1 < (fetch_pr_nodes u f t fst s2 fuel).2.length →
       ∃ d nop p, s2 j = .ok none (some d) ∧
         extract_pr d = some (nop, p) ∧ p.has_next_page = true ∧
         (fetch_pr_nodes u f t fst s2 fuel).2.get? (j + 1) =
           some (build_pr_vars u f t fst p.end_cursor))) ∧
    ((∀ v ∈ (fetch_pr_review_nodes u f t fst s3 fuel).2,
        v.username = u ∧ v.fromDate = f ∧ v.toDate = t ∧
        v.issues_first = fst ∧ v.issues_after = none ∧ v.prs_first = fst ∧
        v.prs_after = none ∧ v.pr_reviews_first = fst) ∧
     ((fetch_pr_review_nodes u f t fst s3 fuel).2 ≠ [] →
       (fetch_pr_review_nodes u f t fst s3 fuel).2.get? 0 =
         some (build_pr_review_vars u f t fst none)) ∧
     (∀ j, j + 1 < (fetch_pr_review_nodes u f t fst s3 fuel).2.length →
       ∃ d nop p, s3 j = .ok none (some d) ∧
         extract_pr_review d = some (nop, p) ∧ p.has_next_page = true ∧
         (fetch_pr_review_nodes u f t fst s3 fuel).2.get? (j + 1) =
           some (build_pr_review_vars u f t fst p.end_cursor))) := by
  obtain ⟨hm1, hh1, ht1⟩ := fetch_all_nodes_request_shape
    (build_issue_vars u f t fst) extract_issue extract_page_info_pair s1 fuel
  obtain ⟨hm2, hh2, ht2⟩ := fetch_all_nodes_request_shape
    (build_pr_vars u f t fst) extract_pr extract_page_info_pair s2 fuel
  obtain ⟨hm3, hh3, ht3⟩ := fetch_all_nodes_request_shape
    (build_pr_review_vars u f t fst) extract_pr_review
    extract_page_info_pair s3 fuel
  refine ⟨⟨?_, hh1, ht1⟩, ⟨?_, hh2, ht2⟩, ⟨?_, hh3, ht3⟩⟩
  · intro v hv
    obtain ⟨c, rfl⟩ := hm1 v hv
    exact ⟨rfl, rfl, rfl, rfl, rfl, rfl, rfl, rfl⟩
  · intro v hv
    obtain ⟨c, rfl⟩ := hm2 v hv
    exact ⟨rfl, rfl, rfl, rfl, rfl, rfl, rfl, rfl⟩
  · intro v hv
    obtain ⟨c, rfl⟩ := hm3 v hv
    exact ⟨rfl, rfl, rfl, rfl, rfl, rfl, rfl, rfl⟩

/-- Witness for C8: on the concrete two-page issue run of `c1Server`, the
second request (built after the first reply) carries the threaded cursor
`"cursor1"` in `issues_after`, the fixed size 10 in all three `first` slots,
and absent cursors in the two inactive pairs. -/
theorem drain_request_variables_witness :
    ((build_issue_vars "alice" "f0" "t0" 10 (some "cursor1")).username =
        "alice" ∧
     (build_issue_vars "alice" "f0" "t0" 10 (some "cursor1")).fromDate = "f0" ∧
     (build_issue_vars "alice" "f0" "t0" 10 (some "cursor1")).toDate = "t0" ∧
     (build_issue_vars "alice" "f0" "t0" 10 (some "cursor1")).issues_first
        = 10 ∧
     (build_issue_vars "alice" "f0" "t0" 10 (some "cursor1")).prs_first = 10 ∧
     (build_issue_vars "alice" "f0" "t0" 10 (some "cursor1")).prs_after
        = none ∧
     (build_issue_vars "alice" "f0" "t0" 10
        (some "cursor1")).pr_reviews_first = 10 ∧
     (build_issue_vars "alice" "f0" "t0" 10
        (some "cursor1")).pr_reviews_after = none) ∧
    (∃ d nop p, c1Server 0 = .ok none (some d) ∧
       extract_issue d = some (nop, p) ∧ p.has_next_page = true ∧
       (fetch_issue_nodes "alice" "f0" "t0" 10 c1Server 2).2.get? (0 + 1) =
         some (build_issue_vars "alice" "f0" "t0" 10 p.end_cursor)) := by
  have h := drain_request_variables "alice" "f0" "t0" 10 c1Server c1Server
    c1Server 2
  exact ⟨h.1.1 (build_issue_vars "alice" "f0" "t0" 10 (some "cursor1"))
      (by decide),
    h.1.2.2 0 (by decide)⟩

/-- The `retain` predicate of the repo filter (src/filter.rs:19-22); an
absent filter keeps everything. -/
def repo_filter_keeps (repo_filter : Option String)
    (rc : CommitContributionsByRepository) : Bool :=
  match repo_filter with
  | some rf => rc.repository.name_with_owner == rf
  | none => true

/-- The `retain` predicate of the org filter (src/filter.rs:24-31); an
absent filter keeps everything. -/
def org_filter_keeps (org_filter : Option String)
    (rc : CommitContributionsByRepository) : Bool :=
  match org_filter with
  | some og => str_starts_with rc.repository.name_with_owner (og ++ "/")
  | none => true

/-- C10: `filter_activity` changes at most the
`commit_contributions_by_repository` list.  Without a user the input is
returned entirely unchanged; with a user, every scalar, the calendar and the
three paginated connections are unchanged, and the commit list is exactly
the input list filtered to the entries satisfying the repo filter (when
given) and the org filter (when given) — with both filters, the
intersection. -/
theorem filter_activity_spec (activity : ResponseData)
    (repo_filter org_filter : Option String) :
    (activity.user = none →
      filter_activity activity repo_filter org_filter = activity) ∧
    (∀ u2, activity.user = some u2 → ∃ u3,
      filter_activity activity repo_filter org_filter = { user := some u3 } ∧
      u3.contributions_collection.total_commit_contributions =
        u2.contributions_collection.total_commit_contributions ∧
      u3.contributions_collection.total_issue_contributions =
        u2.contributions_collection.total_issue_contributions ∧
      u3.contributions_collection.total_pull_request_contributions =
        u2.contributions_collection.total_pull_request_contributions ∧
      u3.contributions_collection.total_pull_request_review_contributions =
        u2.contributions_collection.total_pull_request_review_contributions ∧
      u3.contributions_collection.contribution_calendar =
        u2.contributions_collection.contribution_calendar ∧
      u3.contributions_collection.issue_contributions =
        u2.contributions_collection.issue_contributions ∧
      u3.contributions_collection.pull_request_contributions =
        u2.contributions_collection.pull_request_contributions ∧
      u3.contributions_collection.pull_request_review_contributions =
        u2.contributions_collection.pull_request_review_contributions ∧
      u3.contributions_collection.commit_contributions_by_repository =
        u2.contributions_collection.commit_contributions_by_repository.filter
          (fun rc => repo_filter_keeps repo_filter rc &&
                     org_filter_keeps org_filter rc) ∧
      (∀ rc, rc ∈ u3.contributions_collection.commit_contributions_by_repository ↔
        rc ∈ u2.contributions_collection.commit_contributions_by_repository ∧
        (∀ rf, repo_filter = some rf → rc.repository.name_with_owner = rf) ∧
        (∀ og, org_filter = some og →
          str_starts_with rc.repository.name_with_owner (og ++ "/") = true))) := by
  obtain ⟨ou⟩ := activity
  refine ⟨?_, ?_⟩
  · intro hnone
    simp only at hnone
    subst hnone
    rfl
  · intro u2 hu2
    simp only at hu2
    subst hu2
    have hfa : filter_activity { user := some u2 } repo_filter org_filter =
        { user := some { u2 with contributions_collection :=
            { u2.contributions_collection with
              commit_contributions_by_repository :=
                u2.contributions_collection.commit_contributions_by_repository.filter
                  (fun rc => repo_filter_keeps repo_filter rc &&
                             org_filter_keeps org_filter rc) } } } := by
      cases repo_filter <;> cases org_filter <;>
        simp [filter_activity, repo_filter_keeps, org_filter_keeps,
          List.filter_filter, Bool.and_comm]
    refine ⟨_, hfa, rfl, rfl, rfl, rfl, rfl, rfl, rfl, rfl, rfl, ?_⟩
    intro rc
    show rc ∈ u2.contributions_collection.commit_contributions_by_repository.filter
        (fun rc => repo_filter_keeps repo_filter rc &&
                   org_filter_keeps org_filter rc) ↔ _
    rw [List.mem_filter]
    constructor
    · rintro ⟨hmem, hpred⟩
      simp only [Bool.and_eq_true] at hpred
      refine ⟨hmem, ?_, ?_⟩
      · intro rf hrf
        subst hrf
        simpa [repo_filter_keeps] using hpred.1
      · intro og hog
        subst hog
        simpa [org_filter_keeps] using hpred.2
    · rintro ⟨hmem, hrf, hog⟩
      refine ⟨hmem, ?_⟩
      simp only [Bool.and_eq_true]
      constructor
      · cases repo_filter with
        | none => simp [repo_filter_keeps]
        | some rf => simp [repo_filter_keeps, hrf rf rfl]
      · cases org_filter with
        | none => simp [org_filter_keeps]
        | some og => simp [org_filter_keeps, hog og rfl]

def c10Repo (name : String) (n : Int) : CommitContributionsByRepository :=
  { repository := { name_with_owner := name,
                    updated_at := "2025-03-10T00:00:00Z" },
    contributions := { total_count := n } }

/-- The C10 witness user: three per-repository commit entries, as in the
source's filtering tests. -/
def c10User : User :=
  { contributions_collection :=
      { total_commit_contributions := 0,
        total_issue_contributions := 0,
        total_pull_request_contributions := 0,
        total_pull_request_review_contributions := 0,
        contribution_calendar := { total_contributions := 0, weeks := [] },
        commit_contributions_by_repository :=
          [c10Repo "org1/repo1" 10, c10Repo "org2/repo2" 5,
           c10Repo "org1/repo3" 3],
        issue_contributions :=
          { total_count := 0, page_info := ⟨none, false⟩, nodes := none },
        pull_request_contributions :=
          { total_count := 0, page_info := ⟨none, false⟩, nodes := none },
        pull_request_review_contributions :=
          { total_count := 0, page_info := ⟨none, false⟩, nodes := none } } }

def c10Activity : ResponseData := { user := some c10User }

/-- Witness for C10: with both filters given (`repo = "org1/repo3"`,
`org = "org1"`) only the entry satisfying both is retained. -/
theorem filter_activity_spec_witness :
    ∃ u3, filter_activity c10Activity (some "org1/repo3") (some "org1") =
        { user := some u3 } ∧
      u3.contributions_collection.commit_contributions_by_repository =
        [c10Repo "org1/repo3" 3] := by
  obtain ⟨u3, hfa, _, _, _, _, _, _, _, _, hflt, _⟩ :=
    (filter_activity_spec c10Activity (some "org1/repo3")
      (some "org1")).2 c10User rfl
  exact ⟨u3, hfa, by rw [hflt]; decide⟩
